import Mathlib

/-!
# Verification of the medical appointment booking system

Shallow embedding of the scheduling/booking logic of the
`TP_DAO_TURNERO_MEDICO` repository, together with theorems settling the
frozen claims about its specification.

The repository ships the frontend JavaScript (`frontend/js/app.js`, the
horarios module, the API client).  The backend booking engine is not in
the source tree; where a claim depends on it, the corresponding
definition is modelled from the specification and marked as such in its
doc comment.  Times are minutes as natural numbers; date and timestamp
strings keep the wire format used by the frontend
(`YYYY-MM-DD`, `YYYY-MM-DDTHH:MM:SS`), under the single organizational
timezone the spec assumes.
-/

namespace Turnero

/-! ## JavaScript string primitives

Executable models of the string operations the frontend logic uses:
`<`/`>=` on strings (lexicographic by code unit) and
`substring(start, stop)`. -/

/-- Lexicographic comparison of code-unit lists. -/
def charListLt : List Char → List Char → Bool
  | _, [] => false
  | [], _ :: _ => true
  | a :: as, b :: bs =>
      if a.val < b.val then true
      else if b.val < a.val then false
      else charListLt as bs

/-- JS `a < b` on strings. -/
def jsStrLt (a b : String) : Bool :=
  charListLt a.data b.data

/-- JS `s.substring(strt, stop)` (for in-range ASCII arguments). -/
def jsSubstring (s : String) (strt stop : Nat) : String :=
  String.mk ((s.data.drop strt).take (stop - strt))

/-! ## Appointment status

The spec's closed enumeration PENDING, CONFIRMED, CANCELLED, COMPLETED,
NO_SHOW.  The frontend sees each status as a string code
`turno.estado.codigo`: `PEND`, `CONF`, `CANC`, `REAL` (realizado =
completed), `INAS` (inasistencia = no-show), as matched in
`renderizarTablaMisTurnos` and `mostrarTurnosList`. -/

inductive Status where
  | PENDING
  | CONFIRMED
  | CANCELLED
  | COMPLETED
  | NO_SHOW
  deriving DecidableEq, Repr

/-- The string code the API serves for each status, as the frontend
matches it (`'PEND'`, `'CONF'`, `'CANC'`, `'REAL'`, `'INAS'`). -/
def statusCode : Status → String
  | .PENDING => "PEND"
  | .CONFIRMED => "CONF"
  | .CANCELLED => "CANC"
  | .COMPLETED => "REAL"
  | .NO_SHOW => "INAS"

/-- Terminal states per the spec: CANCELLED, COMPLETED, NO_SHOW. -/
def isTerminal : Status → Bool
  | .CANCELLED => true
  | .COMPLETED => true
  | .NO_SHOW => true
  | _ => false

/-! ## Action buttons offered per appointment (frontend)

From `mostrarTurnosList` (app.js lines 696-705) and
`renderizarTablaMisTurnos` (lines 966-975): the Confirmar button is
rendered when `turno.estado.codigo === 'PEND'`; the Cancelar button is
rendered when `turno.estado.codigo !== 'CANC' && turno.estado.codigo
!== 'INAS'`. -/

def confirmOffered (codigo : String) : Bool :=
  codigo == "PEND"

def cancelOffered (codigo : String) : Bool :=
  codigo != "CANC" && codigo != "INAS"

/-! ## Booking-engine transitions (modelled from the spec) -/

/-- Typed failures of the engine operations (spec section 7). -/
inductive BookingError where
  | SlotUnavailable
  | InvalidTransition
  | NotFound
  deriving DecidableEq, Repr

/-- Modelled from the spec: the backend `confirm(appointmentId)` status
transition is not in `src/`; per section 4.2 it "fails with
`InvalidTransition` unless current status is PENDING. Sets CONFIRMED." -/
def confirmStatus (s : Status) : Except BookingError Status :=
  if s = .PENDING then .ok .CONFIRMED else .error .InvalidTransition

/-- Modelled from the spec: the backend `cancel(appointmentId)` status
transition is not in `src/`; per section 4.2 it "fails with
`InvalidTransition` if status is already CANCELLED, COMPLETED, or
NO_SHOW. Otherwise sets CANCELLED." -/
def cancelStatus (s : Status) : Except BookingError Status :=
  if isTerminal s then .error .InvalidTransition else .ok .CANCELLED

/-! ## Appointment store and the createAppointment step
(modelled from the spec, section 4.2; the backend store is not in
`src/`).  Instants are minutes as naturals. -/

structure Appointment where
  id : Nat
  medicoId : Nat
  pacienteId : Nat
  especialidadId : Nat
  start : Nat
  duration : Nat
  status : Status
  deriving DecidableEq, Repr

structure Block where
  medicoId : Nat
  bstart : Nat
  bend : Nat
  deriving DecidableEq, Repr

structure Store where
  appointments : List Appointment
  blocks : List Block
  nextId : Nat
  deriving DecidableEq, Repr

/-- Overlap of the half-open intervals `[s1, s1+d1)` and `[s2, s2+d2)`. -/
def overlaps (s1 d1 s2 d2 : Nat) : Bool :=
  s1 < s2 + d2 && s2 < s1 + d1

/-- The statuses that occupy a slot per the spec: PENDING or CONFIRMED. -/
def isActive (s : Status) : Bool :=
  s == .PENDING || s == .CONFIRMED

/-- Whether `[strt, strt+dur)` intersects some {PENDING, CONFIRMED}
appointment of the physician. -/
def occupiedOverlap (st : Store) (medicoId strt dur : Nat) : Bool :=
  st.appointments.any fun a =>
    a.medicoId == medicoId && isActive a.status && overlaps a.start a.duration strt dur

/-- Whether `[strt, strt+dur)` intersects some Block of the physician. -/
def blockedOverlap (st : Store) (medicoId strt dur : Nat) : Bool :=
  st.blocks.any fun b => b.medicoId == medicoId && b.bstart < strt + dur && strt < b.bend

/-- Modelled from the spec: the backend `createAppointment` is not in
`src/`; per sections 4.2 and 5 it re-validates, within a single atomic
step, that the requested interval is not covered by a Block and does not
overlap any existing {PENDING, CONFIRMED} appointment of the physician,
failing with `SlotUnavailable` otherwise, and on success inserts the new
record in PENDING.  The spec requires check-then-insert to be
serializable per physician, so a concurrent execution coincides with
some serial composition of these atomic steps. -/
def createAppointment (st : Store) (medicoId pacienteId especialidadId strt dur : Nat) :
    Except BookingError (Appointment × Store) :=
  if blockedOverlap st medicoId strt dur || occupiedOverlap st medicoId strt dur then
    .error .SlotUnavailable
  else
    let a : Appointment := ⟨st.nextId, medicoId, pacienteId, especialidadId, strt, dur, .PENDING⟩
    .ok (a, ⟨a :: st.appointments, st.blocks, st.nextId + 1⟩)

/-- Modelled from the spec: the backend `cancel(appointmentId)` over the
store; it applies `cancelStatus` to the record's status and updates that
status in place, never removing the row ("does not delete the row
(audit trail)"). -/
def cancelAppointment (st : Store) (turnoId : Nat) : Except BookingError Store :=
  match st.appointments.find? (fun a => a.id == turnoId) with
  | none => .error .NotFound
  | some a =>
      match cancelStatus a.status with
      | .error e => .error e
      | .ok s' =>
          .ok ⟨st.appointments.map (fun b => if b.id == turnoId then { b with status := s' } else b),
               st.blocks, st.nextId⟩

/-! ## HTTP requests issued by the frontend API client -/

structure ApiRequest where
  method : String
  endpoint : String
  deriving DecidableEq, Repr

/-- `APIClient.cancelarTurno` (api.js): `POST /turnos/{id}/cancelar`. -/
def cancelarTurnoRequest (turnoId : Nat) : ApiRequest :=
  ⟨"POST", "/turnos/" ++ toString turnoId ++ "/cancelar"⟩

/-- `APIClient.deleteTurno` (api.js): `DELETE /turnos/{id}`. -/
def deleteTurnoRequest (turnoId : Nat) : ApiRequest :=
  ⟨"DELETE", "/turnos/" ++ toString turnoId⟩

/-- The store requests issued by the frontend cancel path
`cancelarTurnoById` (app.js lines 732-749): exactly one call,
`api.cancelarTurno(turnoId)`. -/
def cancelarTurnoByIdRequests (turnoId : Nat) : List ApiRequest :=
  [cancelarTurnoRequest turnoId]

/-! ## Weekly calendar (part_004, `renderizarCalendarioSemanal` and
helpers)

`calendarioState.horariosTodos` maps a date string `YYYY-MM-DD` to the
per-day info served by the calendar endpoint: a `bloqueado` flag, an
optional block reason, and the list of available slot timestamps
`YYYY-MM-DDTHH:MM:SS`.  `calendarioState.turnosOcupados` holds the
booked appointments shown in the grid.  Timestamp splitting follows the
frontend's string positions (`substring(11, 13)` for the hour); the
`Date` round-trip in `buscarTurnoOcupado` is modelled as the same
substring extraction, under the single organizational timezone the spec
assumes. -/

structure DiaInfo where
  bloqueado : Bool
  motivo_bloqueo : Option String
  horarios : List String
  deriving DecidableEq, Repr

structure TurnoOcupado where
  fecha_hora : String
  deriving DecidableEq, Repr

structure CalendarioState where
  horariosTodos : List (String × DiaInfo)
  turnosOcupados : List TurnoOcupado
  deriving DecidableEq, Repr

/-- Dictionary access `calendarioState.horariosTodos[fecha]`. -/
def lookupDia (cs : CalendarioState) (fecha : String) : Option DiaInfo :=
  (cs.horariosTodos.find? fun p => p.1 == fecha).map Prod.snd

/-- `buscarHorarioDisponible(fecha, hora)` (part_004 lines 746-776):
`null` when the date has no entry or is blocked, otherwise the first
slot timestamp whose hour substring equals `hora`. -/
def buscarHorarioDisponible (cs : CalendarioState) (fecha hora : String) : Option String :=
  match lookupDia cs fecha with
  | none => none
  | some diaInfo =>
      if diaInfo.bloqueado then none
      else diaInfo.horarios.find? fun h => jsSubstring h 11 13 == hora

/-- `diaInfo?.bloqueado || false` (part_004 lines 682-683). -/
def diaBloqueado (cs : CalendarioState) (fecha : String) : Bool :=
  match lookupDia cs fecha with
  | some d => d.bloqueado
  | none => false

/-- `buscarTurnoOcupado(fecha, hora)` (part_004 lines 778-786). -/
def buscarTurnoOcupado (cs : CalendarioState) (fecha hora : String) : Option TurnoOcupado :=
  cs.turnosOcupados.find? fun t =>
    jsSubstring t.fecha_hora 0 10 == fecha && jsSubstring t.fecha_hora 11 13 == hora

/-- The four cell states of the weekly grid (part_004 lines 688-736),
tested in this order: blocked day, occupied slot, available slot,
no availability. -/
inductive CellKind where
  | bloqueadoCell
  | ocupadoCell
  | disponibleCell
  | noDisponibleCell
  deriving DecidableEq, Repr

def cellKind (cs : CalendarioState) (fecha hora : String) : CellKind :=
  if diaBloqueado cs fecha then .bloqueadoCell
  else
    match buscarTurnoOcupado cs fecha hora with
    | some _ => .ocupadoCell
    | none =>
        match buscarHorarioDisponible cs fecha hora with
        | some _ => .disponibleCell
        | none => .noDisponibleCell

/-- The color classes `['', 'amarillo', 'verde', 'rosa']` from which an
occupied cell draws `colores[Math.floor(Math.random() * 4)]`. -/
def colores : List String := ["", "amarillo", "verde", "rosa"]

/-- A rendered calendar cell: its state class, the random color class
(non-empty only for occupied cells), and whether a click listener is
attached (only the `disponible` branch installs one, so only those
cells are selectable). -/
structure CellRender where
  kind : CellKind
  colorClass : String
  selectable : Bool
  deriving DecidableEq, Repr

/-- One cell of `renderizarCalendarioSemanal` (part_004 lines 661-740).
`randIdx` makes the `Math.random()` draw of the occupied-cell color an
explicit input. -/
def renderCell (cs : CalendarioState) (fecha hora : String) (randIdx : Nat) : CellRender :=
  match cellKind cs fecha hora with
  | .bloqueadoCell => ⟨.bloqueadoCell, "", false⟩
  | .ocupadoCell => ⟨.ocupadoCell, colores.getD (randIdx % 4) "", false⟩
  | .disponibleCell => ⟨.disponibleCell, "", true⟩
  | .noDisponibleCell => ⟨.noDisponibleCell, "", false⟩

/-! ## Availability and block forms (part_001) -/

/-- Outcome of a save handler: the input was rejected before any store
request, or a create/update request was issued. -/
inductive SaveOutcome where
  | rejected
  | requested (update : Bool)
  deriving DecidableEq, Repr

/-- The form data collected by `guardarDisponibilidad` (part_001 lines
428-433).  `dia_semana` and `duracion_slot` come through `parseInt`
unvalidated, so any integer can reach the handler. -/
structure DisponibilidadForm where
  dia_semana : Int
  hora_desde : String
  hora_hasta : String
  duracion_slot : Int
  deriving DecidableEq, Repr

/-- `guardarDisponibilidad` (part_001 lines 425-469): the only
client-side validation is `hora_desde >= hora_hasta` (string
comparison on `HH:MM`, which for this fixed format is lexicographic);
otherwise the create or update request is issued. -/
def guardarDisponibilidad (modoEdicion : Bool) (f : DisponibilidadForm) : SaveOutcome :=
  if jsStrLt f.hora_desde f.hora_hasta then .requested modoEdicion else .rejected

/-- A stored block row of `horariosState.bloqueos`. -/
structure Bloqueo where
  id : Nat
  inicio : String
  fin : String
  motivo : String
  deriving DecidableEq, Repr

/-- The form data collected by `guardarBloqueo` (part_001 lines
573-577); `inicio` and `fin` are `YYYY-MM-DD` date strings. -/
structure BloqueoForm where
  inicio : String
  fin : String
  motivo : String
  deriving DecidableEq, Repr

/-- `guardarBloqueo` (part_001 lines 570-619): rejects when
`new Date(inicio) >= new Date(fin)` — for the fixed `YYYY-MM-DD` format
the `Date` order coincides with the lexicographic string order —
otherwise issues the create or update request.  The physician's
existing blocks `bloqueos` are in scope (`horariosState.bloqueos`) but
never consulted: no overlap check. -/
def guardarBloqueo (modoEdicion : Bool) (bloqueos : List Bloqueo) (f : BloqueoForm) :
    SaveOutcome :=
  if jsStrLt f.inicio f.fin then .requested modoEdicion else .rejected

/-! ## Booking payload (app.js `confirmarTurno`, lines 579-589) -/

structure Paciente where
  id : Nat
  deriving DecidableEq, Repr

/-- A selected physician; `slotTemplateDuration` stands for the slot
duration of the availability template behind the selected slot. -/
structure Medico where
  id : Nat
  slotTemplateDuration : Nat
  deriving DecidableEq, Repr

structure Especialidad where
  id : Nat
  deriving DecidableEq, Repr

/-- The body of `api.createTurno`. -/
structure TurnoData where
  id_paciente : Nat
  id_medico : Nat
  id_especialidad : Nat
  fecha_hora : String
  duracion_minutos : Nat
  motivo : Option String
  deriving DecidableEq, Repr

/-- The payload built by `confirmarTurno` (app.js lines 582-589,
part_004 lines 809-816): `duracion_minutos` is the literal `30`. -/
def confirmarTurnoData (paciente : Paciente) (medico : Medico)
    (especialidad : Especialidad) (horario : String) (motivo : Option String) : TurnoData :=
  ⟨paciente.id, medico.id, especialidad.id, horario, 30, motivo⟩

/-! ## Booking wizard (part_004, `appState` / `nextStep` /
`validateStep`)

`appState` holds the four selections and `currentStep`
(part_004 lines 10-16); `updateStepper` writes `currentStep`
(line 219).  Events: the selection writes (lines 332, 385, 429, 484,
721, always a concrete fetched object, never null), the stepper
buttons — `nextStep`, guarded by `validateStep(appState.currentStep)`
(lines 238-242), and `prevStep` — and `resetReservaTurno` (lines
298-303).  The stepper buttons (in the HTML page, not under `src/`)
invoke `nextStep`/`prevStep` with the adjacent step, so the events move
`currentStep` by one. -/

structure WizardState where
  pacienteSeleccionado : Option Nat
  especialidadSeleccionada : Option Nat
  medicoSeleccionado : Option Nat
  horarioSeleccionado : Option String
  currentStep : Nat
  deriving DecidableEq, Repr

def initialAppState : WizardState := ⟨none, none, none, none, 1⟩

/-- `validateStep` (part_004 lines 267-296): steps 1-4 require the
corresponding selection, any other step passes. -/
def validateStep (s : WizardState) (step : Nat) : Bool :=
  match step with
  | 1 => s.pacienteSeleccionado.isSome
  | 2 => s.especialidadSeleccionada.isSome
  | 3 => s.medicoSeleccionado.isSome
  | 4 => s.horarioSeleccionado.isSome
  | _ => true

inductive WizardEvent where
  | setPaciente (p : Nat)
  | setEspecialidad (e : Nat)
  | setMedico (m : Nat)
  | setHorario (h : String)
  | next
  | prev
  | reset
  deriving DecidableEq, Repr

def wizardStep (s : WizardState) : WizardEvent → WizardState
  | .setPaciente p => { s with pacienteSeleccionado := some p }
  | .setEspecialidad e => { s with especialidadSeleccionada := some e }
  | .setMedico m => { s with medicoSeleccionado := some m }
  | .setHorario h => { s with horarioSeleccionado := some h }
  | .next =>
      if validateStep s s.currentStep then { s with currentStep := s.currentStep + 1 } else s
  | .prev => { s with currentStep := s.currentStep - 1 }
  | .reset => initialAppState

def runWizard (evs : List WizardEvent) : WizardState :=
  evs.foldl wizardStep initialAppState

/-- The selections guaranteed at or beyond each step. -/
def WizardInv (s : WizardState) : Prop :=
  (2 ≤ s.currentStep → s.pacienteSeleccionado.isSome = true) ∧
  (3 ≤ s.currentStep → s.especialidadSeleccionada.isSome = true) ∧
  (4 ≤ s.currentStep → s.medicoSeleccionado.isSome = true) ∧
  (5 ≤ s.currentStep → s.horarioSeleccionado.isSome = true)

end Turnero

namespace Turnero

/-! ## Theorems for claims C1 and C2 -/

/-- **C1, counterexample.**  The claim says the cancel action is offered
exactly when the status is non-terminal.  For a COMPLETED appointment
(code `REAL`) the status is terminal and the cancel request fails with
`InvalidTransition`, yet `mostrarTurnosList`/`renderizarTablaMisTurnos`
do offer the Cancelar button, because their guard only excludes codes
`CANC` and `INAS`. -/
theorem c1_cancel_offered_for_completed :
    cancelOffered (statusCode .COMPLETED) = true ∧
    isTerminal .COMPLETED = true ∧
    cancelStatus .COMPLETED = .error .InvalidTransition :=
  ⟨rfl, rfl, rfl⟩

/-- **C1 (amended).**  The cancel request (modelled from the spec)
succeeds exactly when the status is non-terminal, rejecting CANCELLED,
COMPLETED and NO_SHOW with `InvalidTransition`; the frontend offers the
cancel action exactly when the status code is neither `CANC` nor `INAS`
— in particular also for COMPLETED appointments, whose cancel request
then fails. -/
theorem c1_cancel_transition_and_button (s : Status) :
    (cancelStatus s = .ok .CANCELLED ↔ isTerminal s = false) ∧
    (cancelStatus s = .error .InvalidTransition ↔ isTerminal s = true) ∧
    cancelOffered (statusCode s) = (!(s = .CANCELLED : Bool) && !(s = .NO_SHOW : Bool)) := by
  cases s <;> simp [cancelStatus, cancelOffered, statusCode, isTerminal]

/-- **C1 witness.** -/
theorem c1_cancel_transition_and_button_witness :
    cancelStatus .PENDING = .ok .CANCELLED ∧
    cancelOffered (statusCode .PENDING) = true :=
  ⟨(c1_cancel_transition_and_button .PENDING).1.mpr (by decide), by decide⟩

/-- **C2.**  `confirm` (modelled from the spec) succeeds exactly from
PENDING, setting CONFIRMED, and fails with `InvalidTransition` from
every other status; the frontend offers the Confirmar button exactly
when the status code is `PEND`, i.e. exactly for PENDING appointments. -/
theorem c2_confirm_only_from_pending (s : Status) :
    (confirmStatus s = .ok .CONFIRMED ↔ s = .PENDING) ∧
    (s ≠ .PENDING → confirmStatus s = .error .InvalidTransition) ∧
    confirmOffered (statusCode s) = (s = .PENDING : Bool) := by
  cases s <;> simp [confirmStatus, confirmOffered, statusCode]

/-- **C2 witness.** -/
theorem c2_confirm_only_from_pending_witness :
    confirmStatus .CONFIRMED = .error .InvalidTransition :=
  (c2_confirm_only_from_pending .CONFIRMED).2.1 (by decide)

/-- **C3.**  Per-physician serializability of check-then-insert: in any
serial order of two `createAppointment` steps for the same physician
with overlapping requested intervals, if the first succeeds (creating a
PENDING appointment) then the second fails with `SlotUnavailable` — so
at most one of two such concurrent calls can succeed. -/
theorem c3_overlapping_creates_not_both (st : Store)
    (m p1 e1 s1 d1 p2 e2 s2 d2 : Nat)
    (hov : overlaps s1 d1 s2 d2 = true)
    (a : Appointment) (st' : Store)
    (h1 : createAppointment st m p1 e1 s1 d1 = .ok (a, st')) :
    createAppointment st' m p2 e2 s2 d2 = .error .SlotUnavailable := by
  unfold createAppointment at h1 ⊢
  by_cases hc : (blockedOverlap st m s1 d1 || occupiedOverlap st m s1 d1) = true
  · simp [hc] at h1
  · simp only [hc, Bool.false_eq_true, if_false, Except.ok.injEq, Prod.mk.injEq] at h1
    obtain ⟨-, hst⟩ := h1
    have hocc : occupiedOverlap st' m s2 d2 = true := by
      subst hst
      simp [occupiedOverlap, List.any_cons, isActive, overlaps]
      exact Or.inl (by simpa [overlaps] using hov)
    simp [hocc]

/-- **C3 witness.** -/
theorem c3_overlapping_creates_not_both_witness :
    createAppointment
      (Store.mk [Appointment.mk 0 1 10 5 570 30 .PENDING] [] 1) 1 11 5 570 30
      = .error .SlotUnavailable :=
  c3_overlapping_creates_not_both (Store.mk [] [] 0) 1 10 5 570 30 11 5 570 30 rfl
    (Appointment.mk 0 1 10 5 570 30 .PENDING)
    (Store.mk [Appointment.mk 0 1 10 5 570 30 .PENDING] [] 1) rfl

/-- **C8.**  The cancel path issues only the dedicated cancel request,
never the distinct delete request; and a successful cancel (modelled
from the spec) keeps every appointment row: the store keeps the same
number of appointments and the same blocks, rows with another id are
untouched, and the cancelled row survives with only its status changed
to CANCELLED. -/
theorem c8_cancel_never_deletes (st : Store) (turnoId : Nat) (st' : Store)
    (h : cancelAppointment st turnoId = .ok st') :
    (∀ r ∈ cancelarTurnoByIdRequests turnoId, r ≠ deleteTurnoRequest turnoId) ∧
    st'.appointments.length = st.appointments.length ∧
    st'.blocks = st.blocks ∧
    (∀ b ∈ st.appointments, b.id ≠ turnoId → b ∈ st'.appointments) ∧
    (∀ b ∈ st.appointments, b.id = turnoId →
      { b with status := .CANCELLED } ∈ st'.appointments) := by
  unfold cancelAppointment at h
  cases hf : st.appointments.find? (fun a => a.id == turnoId) with
  | none => simp [hf] at h
  | some a =>
      rw [hf] at h
      dsimp only at h
      cases hcs : cancelStatus a.status with
      | error e => rw [hcs] at h; cases h
      | ok s' =>
          rw [hcs] at h
          have hs' : s' = .CANCELLED := by
            unfold cancelStatus at hcs
            by_cases ht : isTerminal a.status = true
            · simp [ht] at hcs
            · simp [ht] at hcs; exact hcs.symm
          cases h
          subst hs'
          refine ⟨?_, ?_, rfl, ?_, ?_⟩
          · intro r hr
            simp only [cancelarTurnoByIdRequests, List.mem_singleton] at hr
            subst hr
            intro hEq
            have : "POST" = "DELETE" := congrArg ApiRequest.method hEq
            exact absurd this (by decide)
          · simp [List.length_map]
          · intro b hb hbid
            exact List.mem_map.mpr ⟨b, hb, by simp [hbid]⟩
          · intro b hb hbid
            exact List.mem_map.mpr ⟨b, hb, by simp [hbid]⟩

/-- **C8 witness.** -/
theorem c8_cancel_never_deletes_witness :
    (Store.mk [Appointment.mk 0 1 10 5 570 30 .CANCELLED] [] 1).appointments.length
      = (Store.mk [Appointment.mk 0 1 10 5 570 30 .PENDING] [] 1).appointments.length :=
  (c8_cancel_never_deletes (Store.mk [Appointment.mk 0 1 10 5 570 30 .PENDING] [] 1) 0
    (Store.mk [Appointment.mk 0 1 10 5 570 30 .CANCELLED] [] 1) rfl).2.1

/-- **C4.**  A date whose calendar entry is marked `bloqueado` offers no
bookable slot at any hour (`buscarHorarioDisponible` is `null`), its
cells take the blocked branch of the renderer, and no cell of that date
is selectable — whatever the random color draw. -/
theorem c4_blocked_day_never_selectable (cs : CalendarioState) (fecha hora : String)
    (d : DiaInfo) (hd : lookupDia cs fecha = some d) (hb : d.bloqueado = true) :
    buscarHorarioDisponible cs fecha hora = none ∧
    cellKind cs fecha hora = .bloqueadoCell ∧
    ∀ randIdx : Nat, (renderCell cs fecha hora randIdx).selectable = false := by
  have hdb : diaBloqueado cs fecha = true := by
    unfold diaBloqueado
    rw [hd]
    exact hb
  have hk : cellKind cs fecha hora = .bloqueadoCell := by
    unfold cellKind
    rw [hdb]
    simp
  refine ⟨?_, hk, ?_⟩
  · unfold buscarHorarioDisponible
    rw [hd]
    simp [hb]
  · intro randIdx
    unfold renderCell
    rw [hk]

/-- **C4 witness.** -/
theorem c4_blocked_day_never_selectable_witness :
    buscarHorarioDisponible
      (CalendarioState.mk
        [("2025-11-24", DiaInfo.mk true (some "vacaciones") ["2025-11-24T08:00:00"])] [])
      "2025-11-24" "08" = none :=
  (c4_blocked_day_never_selectable
    (CalendarioState.mk
      [("2025-11-24", DiaInfo.mk true (some "vacaciones") ["2025-11-24T08:00:00"])] [])
    "2025-11-24" "08" (DiaInfo.mk true (some "vacaciones") ["2025-11-24T08:00:00"])
    rfl rfl).1

/-- **C5, counterexample.**  Rendering the same occupied cell twice
over the same store state yields different output when the two
`Math.random()` draws differ (color `''` versus `'amarillo'`): the
rendered calendar is not a pure function of the store state. -/
theorem c5_random_color_not_deterministic :
    renderCell
      (CalendarioState.mk [("2025-11-24", DiaInfo.mk false none [])]
        [TurnoOcupado.mk "2025-11-24T08:00:00"]) "2025-11-24" "08" 0
    ≠ renderCell
      (CalendarioState.mk [("2025-11-24", DiaInfo.mk false none [])]
        [TurnoOcupado.mk "2025-11-24T08:00:00"]) "2025-11-24" "08" 1 := by
  decide

/-- **C5 (amended).**  The slot lookup and the cell classification
(blocked / occupied / available / no-availability, hence also
selectability) are pure, deterministic functions of the store state:
over the same state they are identical across renders, whatever the
random draws; only the decorative color class of an occupied cell
depends on the `Math.random()` value. -/
theorem c5_classification_deterministic (cs : CalendarioState) (fecha hora : String)
    (r1 r2 : Nat) :
    (renderCell cs fecha hora r1).kind = (renderCell cs fecha hora r2).kind ∧
    (renderCell cs fecha hora r1).selectable = (renderCell cs fecha hora r2).selectable ∧
    (cellKind cs fecha hora ≠ .ocupadoCell →
      renderCell cs fecha hora r1 = renderCell cs fecha hora r2) := by
  unfold renderCell
  cases hk : cellKind cs fecha hora <;> simp [hk]

/-- **C5 witness.** -/
theorem c5_classification_deterministic_witness :
    renderCell
      (CalendarioState.mk [("2025-11-24", DiaInfo.mk false none ["2025-11-24T09:00:00"])] [])
      "2025-11-24" "09" 0
    = renderCell
      (CalendarioState.mk [("2025-11-24", DiaInfo.mk false none ["2025-11-24T09:00:00"])] [])
      "2025-11-24" "09" 1 :=
  (c5_classification_deterministic
    (CalendarioState.mk [("2025-11-24", DiaInfo.mk false none ["2025-11-24T09:00:00"])] [])
    "2025-11-24" "09" 0 1).2.2 (by decide)

/-- **C6, counterexample.**  A form with slot duration `0` and
day-of-week `9` — both malformed per the claim — but well-ordered hours
is not refused: `guardarDisponibilidad` issues the create request, so
no duration or day-of-week validation happens before the store write. -/
theorem c6_duration_day_not_validated :
    guardarDisponibilidad false (DisponibilidadForm.mk 9 "08:00" "12:00" 0)
      = .requested false := by
  decide

/-- **C6 (amended).**  `guardarDisponibilidad` refuses the save — before
any store request — exactly when `hora_desde >= hora_hasta`; whenever
`hora_desde < hora_hasta` the create/update request is issued, with no
check of the slot duration or the day-of-week. -/
theorem c6_only_start_end_validated (modo : Bool) (f : DisponibilidadForm) :
    (guardarDisponibilidad modo f = .rejected ↔ jsStrLt f.hora_desde f.hora_hasta = false) ∧
    (jsStrLt f.hora_desde f.hora_hasta = true →
      guardarDisponibilidad modo f = .requested modo) := by
  unfold guardarDisponibilidad
  by_cases h : jsStrLt f.hora_desde f.hora_hasta = true
  · simp [h]
  · simp only [Bool.not_eq_true] at h
    simp [h]

/-- **C6 witness.** -/
theorem c6_only_start_end_validated_witness :
    guardarDisponibilidad false (DisponibilidadForm.mk 1 "12:00" "08:00" 30) = .rejected :=
  (c6_only_start_end_validated false (DisponibilidadForm.mk 1 "12:00" "08:00" 30)).1.mpr
    (by decide)

/-- **C7.**  `guardarBloqueo` rejects the save — issuing no store
request — exactly when `inicio >= fin`, issues the create/update
request whenever `inicio < fin`, and its outcome is independent of the
physician's existing blocks: no overlap check is performed, so a block
overlapping an existing one is accepted. -/
theorem c7_block_save_start_end_no_overlap_check (modo : Bool) (bs : List Bloqueo)
    (f : BloqueoForm) :
    (guardarBloqueo modo bs f = .rejected ↔ jsStrLt f.inicio f.fin = false) ∧
    (jsStrLt f.inicio f.fin = true → guardarBloqueo modo bs f = .requested modo) ∧
    (∀ bs' : List Bloqueo, guardarBloqueo modo bs f = guardarBloqueo modo bs' f) := by
  unfold guardarBloqueo
  by_cases h : jsStrLt f.inicio f.fin = true
  · simp [h]
  · simp only [Bool.not_eq_true] at h
    simp [h]

/-- **C7 witness.**  A new block overlapping an existing stored block is
accepted (the request is issued). -/
theorem c7_block_save_start_end_no_overlap_check_witness :
    guardarBloqueo false [Bloqueo.mk 1 "2025-01-01" "2025-01-31" "vacaciones"]
      (BloqueoForm.mk "2025-01-10" "2025-01-20" "congreso") = .requested false :=
  (c7_block_save_start_end_no_overlap_check false
    [Bloqueo.mk 1 "2025-01-01" "2025-01-31" "vacaciones"]
    (BloqueoForm.mk "2025-01-10" "2025-01-20" "congreso")).2.1 (by decide)

/-- **C9.**  Every payload built by the booking flow carries
`duracion_minutos = 30`, for every selection of patient, physician,
specialty, slot and reason; in particular the physician's template slot
duration never reaches the payload. -/
theorem c9_duration_always_30 (p : Paciente) (m : Medico) (e : Especialidad)
    (horario : String) (motivo : Option String) (otherDur : Nat) :
    (confirmarTurnoData p m e horario motivo).duracion_minutos = 30 ∧
    confirmarTurnoData p (Medico.mk m.id otherDur) e horario motivo
      = confirmarTurnoData p m e horario motivo :=
  ⟨rfl, rfl⟩

theorem wizardInv_initial : WizardInv initialAppState := by
  refine ⟨?_, ?_, ?_, ?_⟩ <;> intro h <;> simp [initialAppState] at h

theorem wizardInv_preserved (s : WizardState) (hs : WizardInv s) (e : WizardEvent) :
    WizardInv (wizardStep s e) := by
  obtain ⟨h1, h2, h3, h4⟩ := hs
  cases e with
  | setPaciente p =>
      exact ⟨fun _ => rfl, fun h => h2 h, fun h => h3 h, fun h => h4 h⟩
  | setEspecialidad e =>
      exact ⟨fun h => h1 h, fun _ => rfl, fun h => h3 h, fun h => h4 h⟩
  | setMedico m =>
      exact ⟨fun h => h1 h, fun h => h2 h, fun _ => rfl, fun h => h4 h⟩
  | setHorario h =>
      exact ⟨fun h => h1 h, fun h => h2 h, fun h => h3 h, fun _ => rfl⟩
  | reset => exact wizardInv_initial
  | prev =>
      refine ⟨?_, ?_, ?_, ?_⟩ <;> intro h
      · exact h1 (le_trans h (Nat.sub_le _ _))
      · exact h2 (le_trans h (Nat.sub_le _ _))
      · exact h3 (le_trans h (Nat.sub_le _ _))
      · exact h4 (le_trans h (Nat.sub_le _ _))
  | next =>
      by_cases hv : validateStep s s.currentStep = true
      · simp only [wizardStep, hv, if_true]
        refine ⟨?_, ?_, ?_, ?_⟩ <;> intro h
        · rcases Nat.lt_or_ge s.currentStep 2 with hc | hc
          · have hc1 : s.currentStep = 1 :=
              le_antisymm (Nat.lt_succ_iff.mp hc) (Nat.le_of_succ_le_succ h)
            rw [hc1] at hv
            simpa [validateStep] using hv
          · exact h1 hc
        · rcases Nat.lt_or_ge s.currentStep 3 with hc | hc
          · have hc2 : s.currentStep = 2 :=
              le_antisymm (Nat.lt_succ_iff.mp hc) (Nat.le_of_succ_le_succ h)
            rw [hc2] at hv
            simpa [validateStep] using hv
          · exact h2 hc
        · rcases Nat.lt_or_ge s.currentStep 4 with hc | hc
          · have hc3 : s.currentStep = 3 :=
              le_antisymm (Nat.lt_succ_iff.mp hc) (Nat.le_of_succ_le_succ h)
            rw [hc3] at hv
            simpa [validateStep] using hv
          · exact h3 hc
        · rcases Nat.lt_or_ge s.currentStep 5 with hc | hc
          · have hc4 : s.currentStep = 4 :=
              le_antisymm (Nat.lt_succ_iff.mp hc) (Nat.le_of_succ_le_succ h)
            rw [hc4] at hv
            simpa [validateStep] using hv
          · exact h4 hc
      · simp only [wizardStep, hv, if_false]
        exact ⟨h1, h2, h3, h4⟩

theorem wizardInv_foldl (evs : List WizardEvent) :
    ∀ s : WizardState, WizardInv s → WizardInv (evs.foldl wizardStep s) := by
  induction evs with
  | nil => exact fun s hs => hs
  | cons e evs ih => exact fun s hs => ih _ (wizardInv_preserved s hs e)

/-- **C10.**  `nextStep` leaves the state unchanged whenever
`validateStep` fails on the current step; consequently, every run of
the wizard that reaches the confirmation step (step 5) has a non-null
selected patient, specialty, physician and time slot in `appState`. -/
theorem c10_step5_selections_nonnull (evs : List WizardEvent)
    (h5 : (runWizard evs).currentStep = 5) :
    (∀ s : WizardState, validateStep s s.currentStep = false → wizardStep s .next = s) ∧
    (runWizard evs).pacienteSeleccionado.isSome = true ∧
    (runWizard evs).especialidadSeleccionada.isSome = true ∧
    (runWizard evs).medicoSeleccionado.isSome = true ∧
    (runWizard evs).horarioSeleccionado.isSome = true := by
  have hi : WizardInv (runWizard evs) := wizardInv_foldl evs initialAppState wizardInv_initial
  obtain ⟨h1, h2, h3, h4⟩ := hi
  refine ⟨?_, h1 (by rw [h5]; norm_num), h2 (by rw [h5]; norm_num), h3 (by rw [h5]; norm_num),
    h4 (by rw [h5])⟩
  intro s hv
  simp [wizardStep, hv]

/-- **C10 witness.**  The straight-through run of the wizard reaches
step 5 with all four selections made. -/
theorem c10_step5_selections_nonnull_witness :
    (runWizard [.setPaciente 1, .next, .setEspecialidad 2, .next, .setMedico 3, .next,
      .setHorario "2025-11-24T08:00:00", .next]).pacienteSeleccionado.isSome = true :=
  (c10_step5_selections_nonnull
    [.setPaciente 1, .next, .setEspecialidad 2, .next, .setMedico 3, .next,
      .setHorario "2025-11-24T08:00:00", .next] (by decide)).2.1

end Turnero
